import Mathlib

/-!
Shallow embedding of `resnet/resnet.py` (a Keras ResNet architecture builder).

The source builds a layer graph by constructing Keras layer objects and
applying them to symbolic tensors.  We embed a symbolic tensor as a tree
recording how it was built (constructor per Keras layer kind), and the
construction process as a monad `BuildM` whose state is the chronological
list of layer objects constructed so far and whose exceptions model the
Python `raise Exception(...)` statements of `ResNetBuilder.build`.

Shape bookkeeping: a Keras symbolic tensor carries `_keras_shape`, which the
source reads at the indices ROW_AXIS / COL_AXIS / CHANNEL_AXIS.  The source
fixes those indices at import time from the backend dim ordering; we embed
the `th` ordering (the one matching the docstring "(nb_channels, nb_rows,
nb_cols)" and the sample input (3, 224, 224)), and we drop the batch
dimension (index 0 in Keras, always None), so our shapes are
[channels, rows, cols] and the axis constants are one less than the
corresponding Python values (CHANNEL_AXIS 1 -> 0, ROW_AXIS 2 -> 1,
COL_AXIS 3 -> 2).  Shape propagation through convolution and pooling layers
follows Keras's `conv_output_length` (border_mode "same":
ceil(len / stride); "valid": ceil((len - size + 1) / stride)); that part of
the semantics lives in the wrapped framework, which the spec places out of
scope, but the builder reads the resulting shapes so we need it.
-/

namespace Resnet

def CHANNEL_AXIS : Nat := 0
def ROW_AXIS : Nat := 1
def COL_AXIS : Nat := 2

/-- String constants appearing as literal arguments in the source. -/
def he_normal : String := "he_normal"

def border_same : String := "same"

def border_valid : String := "valid"

def relu : String := "relu"

def sum_merge : String := "sum"

def softmax : String := "softmax"

def sigmoid : String := "sigmoid"

def categorical : String := "categorical"

def binary : String := "binary"

def input_shape_msg : String := "Input shape should be a tuple (nb_channels, nb_rows, nb_cols)"

def mode_msg : String := "mode should either be categorical or binary"

/-- A Keras symbolic tensor: the tree of layer applications that produced it.
One constructor per layer kind used by the source.  `merge` is the Keras
`merge([...], mode=...)` function; the source only ever merges exactly two
tensors (`[shortcut, residual]`), so the constructor is binary. -/
inductive Tensor where
  | input (shape : List Nat)
  | conv2d (nb_filter nb_row nb_col : Nat) (subsample : Nat × Nat)
      (init border_mode : String) (t : Tensor)
  | batchNorm (mode axis : Nat) (t : Tensor)
  | activation (name : String) (t : Tensor)
  | maxPool (pool_size strides : Nat × Nat) (border_mode : String) (t : Tensor)
  | avgPool (pool_size strides : Nat × Nat) (t : Tensor)
  | flatten (t : Tensor)
  | dense (output_dim : Nat) (init activation : String) (t : Tensor)
  | merge (a b : Tensor) (mode : String)
deriving DecidableEq, Repr

/-- A record of one layer object being constructed (the chronological trace
kept by `BuildM`).  Mirrors the layer constructor calls in the source. -/
inductive LayerOp where
  | inputLayer (shape : List Nat)
  | conv (nb_filter nb_row nb_col : Nat) (subsample : Nat × Nat)
      (init border_mode : String)
  | batchNorm (mode axis : Nat)
  | activationLayer (name : String)
  | maxPool (pool_size strides : Nat × Nat) (border_mode : String)
  | avgPool (pool_size strides : Nat × Nat)
  | flattenLayer
  | denseLayer (output_dim : Nat) (init activation : String)
  | mergeLayer (mode : String)
deriving DecidableEq, Repr

/-- Keras `conv_output_length`: output spatial extent of a convolution or
pooling layer.  (`border_mode = "same"`: ceil(L / stride); otherwise
("valid"): ceil((L - filter_size + 1) / stride).  Nat subtraction truncates
at 0 where Python would go negative; the builder only ever reaches this with
`input_length ≥ filter_size` for the "valid" case.) -/
def conv_output_length (input_length filter_size : Nat) (border_mode : String)
    (stride : Nat) : Nat :=
  if border_mode = border_same then (input_length + stride - 1) / stride
  else (input_length - filter_size + 1 + stride - 1) / stride

/-- The `_keras_shape` of a symbolic tensor, batch dimension dropped. -/
def kerasShape : Tensor → List Nat
  | .input shape => shape
  | .conv2d nf nr nc s _ bm t =>
      let sh := kerasShape t
      [nf, conv_output_length (sh.getD ROW_AXIS 0) nr bm s.1,
        conv_output_length (sh.getD COL_AXIS 0) nc bm s.2]
  | .batchNorm _ _ t => kerasShape t
  | .activation _ t => kerasShape t
  | .maxPool p s bm t =>
      let sh := kerasShape t
      [sh.getD CHANNEL_AXIS 0, conv_output_length (sh.getD ROW_AXIS 0) p.1 bm s.1,
        conv_output_length (sh.getD COL_AXIS 0) p.2 bm s.2]
  | .avgPool p s t =>
      let sh := kerasShape t
      [sh.getD CHANNEL_AXIS 0,
        conv_output_length (sh.getD ROW_AXIS 0) p.1 border_valid s.1,
        conv_output_length (sh.getD COL_AXIS 0) p.2 border_valid s.2]
  | .flatten t => [(kerasShape t).foldl (· * ·) 1]
  | .dense n _ _ _ => [n]
  | .merge a _ _ => kerasShape a

/-- `tensor._keras_shape[ROW_AXIS]` of the source. -/
def rowDim (t : Tensor) : Nat := (kerasShape t).getD ROW_AXIS 0

/-- `tensor._keras_shape[COL_AXIS]` of the source. -/
def colDim (t : Tensor) : Nat := (kerasShape t).getD COL_AXIS 0

/-- `tensor._keras_shape[CHANNEL_AXIS]` of the source. -/
def channelDim (t : Tensor) : Nat := (kerasShape t).getD CHANNEL_AXIS 0

/-- The graph-construction monad: state is the chronological list of layer
objects constructed so far, and the `Except` component models the Python
exceptions raised by `ResNetBuilder.build`.  (A raised exception propagates
out of `build`, but the layers constructed before it still exist, so the
state component survives an error.) -/
def BuildM (α : Type) : Type := List LayerOp → Except String α × List LayerOp

def BuildM.pure {α : Type} (a : α) : BuildM α := fun ops => (.ok a, ops)

def BuildM.bind {α β : Type} (m : BuildM α) (f : α → BuildM β) : BuildM β :=
  fun ops =>
    match m ops with
    | (.ok a, ops') => f a ops'
    | (.error e, ops') => (.error e, ops')

instance : Monad BuildM where
  pure := BuildM.pure
  bind := BuildM.bind

/-- Record the construction of one layer object. -/
def newLayer (op : LayerOp) : BuildM Unit := fun ops => (.ok (), ops ++ [op])

/-- Python `raise Exception(msg)`. -/
def raiseB {α : Type} (msg : String) : BuildM α := fun ops => (.error msg, ops)

/-- Run a construction from the empty trace. -/
def runBuild {α : Type} (m : BuildM α) : Except String α × List LayerOp := m []

instance {ε α : Type} [DecidableEq ε] [DecidableEq α] : DecidableEq (Except ε α) :=
  fun x y =>
    match x, y with
    | .ok a, .ok b =>
        if h : a = b then .isTrue (by rw [h]) else
          .isFalse (by intro hc; cases hc; exact h rfl)
    | .error e, .error f =>
        if h : e = f then .isTrue (by rw [h]) else
          .isFalse (by intro hc; cases hc; exact h rfl)
    | .ok _, .error _ => .isFalse (by intro hc; cases hc)
    | .error _, .ok _ => .isFalse (by intro hc; cases hc)

/-! Keras layer construction + application primitives, one per layer kind
used by the source.  Each constructs the layer object (recording it in the
trace) and applies it to its input tensor. -/

def Input (shape : List Nat) : BuildM Tensor := do
  newLayer (.inputLayer shape)
  pure (.input shape)

def Convolution2D (nb_filter nb_row nb_col : Nat) (subsample : Nat × Nat)
    (init border_mode : String) (t : Tensor) : BuildM Tensor := do
  newLayer (.conv nb_filter nb_row nb_col subsample init border_mode)
  pure (.conv2d nb_filter nb_row nb_col subsample init border_mode t)

def BatchNormalization (mode axis : Nat) (t : Tensor) : BuildM Tensor := do
  newLayer (.batchNorm mode axis)
  pure (.batchNorm mode axis t)

def Activation (name : String) (t : Tensor) : BuildM Tensor := do
  newLayer (.activationLayer name)
  pure (.activation name t)

def MaxPooling2D (pool_size strides : Nat × Nat) (border_mode : String)
    (t : Tensor) : BuildM Tensor := do
  newLayer (.maxPool pool_size strides border_mode)
  pure (.maxPool pool_size strides border_mode t)

def AveragePooling2D (pool_size strides : Nat × Nat) (t : Tensor) : BuildM Tensor := do
  newLayer (.avgPool pool_size strides)
  pure (.avgPool pool_size strides t)

def Flatten (t : Tensor) : BuildM Tensor := do
  newLayer (.flattenLayer)
  pure (.flatten t)

def Dense (output_dim : Nat) (init activation : String) (t : Tensor) : BuildM Tensor := do
  newLayer (.denseLayer output_dim init activation)
  pure (.dense output_dim init activation t)

/-- Keras `merge(inputs, mode=...)`.  The source always passes exactly two
inputs (`[shortcut, residual]`); other arities are framework territory the
repo never exercises, embedded here as an error. -/
def merge (inputs : List Tensor) (mode : String) : BuildM Tensor :=
  match inputs with
  | [a, b] => do
      newLayer (.mergeLayer mode)
      pure (.merge a b mode)
  | _ => raiseB ("merge of the source is applied to exactly two tensors")

/-! The repository's own helpers, translated line by line from
`resnet/resnet.py`. -/

/-- `_conv_bn_relu(nb_filter, nb_row, nb_col, subsample)` applied to `input`:
conv -> BN -> relu. -/
def conv_bn_relu (nb_filter nb_row nb_col : Nat) (subsample : Nat × Nat)
    (input : Tensor) : BuildM Tensor := do
  let conv ← Convolution2D nb_filter nb_row nb_col subsample he_normal border_same input
  let norm ← BatchNormalization 0 CHANNEL_AXIS conv
  Activation relu norm

/-- `_bn_relu_conv(nb_filter, nb_row, nb_col, subsample)` applied to `input`:
BN -> relu -> conv (the improved ordering of arXiv:1603.05027). -/
def bn_relu_conv (nb_filter nb_row nb_col : Nat) (subsample : Nat × Nat)
    (input : Tensor) : BuildM Tensor := do
  let norm ← BatchNormalization 0 CHANNEL_AXIS input
  let activation ← Activation relu norm
  Convolution2D nb_filter nb_row nb_col subsample he_normal border_same activation

/-- `_shortcut(input, residual)`: merge with "sum", inserting a 1x1
projection convolution when the integer stride ratio exceeds 1 on either
spatial axis or the channel counts differ. -/
def shortcut_fn (input residual : Tensor) : BuildM Tensor := do
  let stride_width := rowDim input / rowDim residual
  let stride_height := colDim input / colDim residual
  let equal_channels := channelDim residual = channelDim input
  let shortcut ←
    if stride_width > 1 ∨ stride_height > 1 ∨ ¬equal_channels then
      Convolution2D (channelDim residual) 1 1 (stride_width, stride_height)
        he_normal border_valid input
    else
      pure input
  merge [shortcut, residual] sum_merge

/-- The type of a block function (`basic_block` / `bottleneck`): arguments
`nb_filters` and `init_subsample`, then the input tensor. -/
def BlockFn : Type := Nat → Nat × Nat → Tensor → BuildM Tensor

/-- The loop body of `_residual_block`: `n` remaining iterations; the Bool
argument is true exactly on the iteration with `i == 0`. -/
def residual_block_go (block_function : BlockFn) (nb_filters : Nat)
    (is_first_layer : Bool) : Nat → Bool → Tensor → BuildM Tensor
  | 0, _, t => pure t
  | n + 1, first_iter, t => do
      let init_subsample : Nat × Nat :=
        if first_iter && !is_first_layer then (2, 2) else (1, 1)
      let t' ← block_function nb_filters init_subsample t
      residual_block_go block_function nb_filters is_first_layer n false t'

/-- `_residual_block(block_function, nb_filters, repetitions, is_first_layer)`
applied to `input`. -/
def residual_block (block_function : BlockFn) (nb_filters repetitions : Nat)
    (is_first_layer : Bool) (input : Tensor) : BuildM Tensor :=
  residual_block_go block_function nb_filters is_first_layer repetitions true input

/-- `basic_block(nb_filters, init_subsample)` applied to `input`. -/
def basic_block : BlockFn := fun nb_filters init_subsample input => do
  let conv1 ← bn_relu_conv nb_filters 3 3 init_subsample input
  let residual ← bn_relu_conv nb_filters 3 3 (1, 1) conv1
  shortcut_fn input residual

/-- `bottleneck(nb_filters, init_subsample)` applied to `input`. -/
def bottleneck : BlockFn := fun nb_filters init_subsample input => do
  let conv_1_1 ← bn_relu_conv nb_filters 1 1 init_subsample input
  let conv_3_3 ← bn_relu_conv nb_filters 3 3 (1, 1) conv_1_1
  let residual ← bn_relu_conv (nb_filters * 4) 1 1 (1, 1) conv_3_3
  shortcut_fn input residual

/-- A Keras `Model` object.  `Model.__init__` does not compile the model;
`model.compile(...)` is a separate, caller-side step (in this repo it
happens only in `main`), recorded here by the `compiled` flag. -/
structure Model where
  input : Tensor
  output : Tensor
  compiled : Bool
deriving DecidableEq, Repr

/-- `Model(input=..., output=...)`: a fresh model is not compiled. -/
def Model.new (input output : Tensor) : Model := ⟨input, output, false⟩

/-- `model.compile(loss=..., optimizer=...)`. -/
def Model.compile (m : Model) (_loss _optimizer : String) : Model :=
  ⟨m.input, m.output, true⟩

/-- The `for i, r in enumerate(repetitions)` loop of `ResNetBuilder.build`:
threads the running tensor, doubling `nb_filters` after each stage; the Bool
argument is true exactly for the stage with `i == 0`. -/
def stackStages (block_fn : BlockFn) : List Nat → Nat → Bool → Tensor → BuildM Tensor
  | [], _, _, t => pure t
  | r :: rest, nb_filters, is_first, t => do
      let t' ← residual_block block_fn nb_filters r is_first t
      stackStages block_fn rest (nb_filters * 2) false t'

/-- `ResNetBuilder.build(input_shape, num_outputs, block_fn, repetitions,
mode)`.  In the source `mode` defaults to "categorical"; we pass it
explicitly at every call site. -/
def ResNetBuilder_build (input_shape : List Nat) (num_outputs : Nat)
    (block_fn : BlockFn) (repetitions : List Nat) (mode : String) : BuildM Model := do
  if input_shape.length ≠ 3 then
    raiseB input_shape_msg
  let input ← Input input_shape
  let conv1 ← conv_bn_relu 64 7 7 (2, 2) input
  let pool1 ← MaxPooling2D (3, 3) (2, 2) border_same conv1
  let block ← stackStages block_fn repetitions 64 true pool1
  let pool2 ← AveragePooling2D (rowDim block, colDim block) (1, 1) block
  let flatten1 ← Flatten pool2
  let dense ←
    if mode = categorical then
      Dense num_outputs he_normal softmax flatten1
    else if mode = binary then
      Dense 1 he_normal sigmoid flatten1
    else
      raiseB mode_msg
  pure (Model.new input dense)

/-! The named variant constructors.  Each also calls the out-of-scope
plotting utility `plot_model_cwd` (pure I/O, from the external
`common_convnet.utils` module) on the built model before returning it;
plotting does not touch the model, so it is not represented here. -/

def build_resnet_18 (input_shape : List Nat) (num_outputs : Nat) : BuildM Model :=
  ResNetBuilder_build input_shape num_outputs basic_block [2, 2, 2, 2] categorical

def build_resnet_34 (input_shape : List Nat) (num_outputs : Nat) : BuildM Model :=
  ResNetBuilder_build input_shape num_outputs basic_block [3, 4, 6, 3] categorical

def build_resnet_34_binary (input_shape : List Nat) : BuildM Model :=
  ResNetBuilder_build input_shape 1 basic_block [3, 4, 6, 3] binary

def build_resnet_50 (input_shape : List Nat) (num_outputs : Nat) : BuildM Model :=
  ResNetBuilder_build input_shape num_outputs bottleneck [3, 4, 6, 3] categorical

def build_resnet_101 (input_shape : List Nat) (num_outputs : Nat) : BuildM Model :=
  ResNetBuilder_build input_shape num_outputs bottleneck [3, 4, 23, 3] categorical

def build_resnet_152 (input_shape : List Nat) (num_outputs : Nat) : BuildM Model :=
  ResNetBuilder_build input_shape num_outputs bottleneck [3, 8, 36, 3] categorical

/-- The demo `main`: builds ResNet-18 on (3, 224, 224) with 1000 outputs and
only then compiles the model. -/
def main_model : BuildM Model := do
  let model ← build_resnet_18 [3, 224, 224] 1000
  pure (model.compile ("categorical_crossentropy") ("sgd"))

/-! Basic run equations for the monad and the layer primitives. -/

theorem bind_eq {α β : Type} (m : BuildM α) (f : α → BuildM β) :
    m >>= f = BuildM.bind m f := rfl

theorem pure_eq {α : Type} (a : α) : (Pure.pure a : BuildM α) = BuildM.pure a := rfl

theorem bind_ok {α β : Type} {m : BuildM α} {st st' : List LayerOp} {a : α}
    (f : α → BuildM β) (h : m st = (.ok a, st')) : (m >>= f) st = f a st' := by
  show BuildM.bind m f st = f a st'
  unfold BuildM.bind
  rw [h]

theorem bind_error {α β : Type} {m : BuildM α} {st st' : List LayerOp} {e : String}
    (f : α → BuildM β) (h : m st = (.error e, st')) :
    (m >>= f) st = (.error e, st') := by
  show BuildM.bind m f st = (.error e, st')
  unfold BuildM.bind
  rw [h]

theorem bind_congr_right {α β : Type} {m : BuildM α} {f g : α → BuildM β}
    (h : ∀ a, f a = g a) : m >>= f = m >>= g := by
  funext st
  show BuildM.bind m f st = BuildM.bind m g st
  unfold BuildM.bind
  rcases m st with ⟨r, st'⟩
  cases r <;> simp [h]

/-- Tensor produced by `_conv_bn_relu`. -/
def convBnReluT (nb_filter nb_row nb_col : Nat) (subsample : Nat × Nat)
    (t : Tensor) : Tensor :=
  .activation relu (.batchNorm 0 CHANNEL_AXIS
    (.conv2d nb_filter nb_row nb_col subsample he_normal border_same t))

/-- Tensor produced by `_bn_relu_conv`. -/
def bnReluConvT (nb_filter nb_row nb_col : Nat) (subsample : Nat × Nat)
    (t : Tensor) : Tensor :=
  .conv2d nb_filter nb_row nb_col subsample he_normal border_same
    (.activation relu (.batchNorm 0 CHANNEL_AXIS t))

theorem Input_run (shape : List Nat) (st : List LayerOp) :
    Input shape st = (.ok (.input shape), st ++ [.inputLayer shape]) := rfl

theorem conv_bn_relu_run (nf nr nc : Nat) (s : Nat × Nat) (t : Tensor)
    (st : List LayerOp) :
    conv_bn_relu nf nr nc s t st =
      (.ok (convBnReluT nf nr nc s t),
        st ++ [.conv nf nr nc s he_normal border_same, .batchNorm 0 CHANNEL_AXIS,
          .activationLayer relu]) := by
  simp [conv_bn_relu, convBnReluT, bind_eq, pure_eq, BuildM.bind, BuildM.pure,
    Convolution2D, BatchNormalization, Activation, newLayer, List.append_assoc]

theorem bn_relu_conv_run (nf nr nc : Nat) (s : Nat × Nat) (t : Tensor)
    (st : List LayerOp) :
    bn_relu_conv nf nr nc s t st =
      (.ok (bnReluConvT nf nr nc s t),
        st ++ [.batchNorm 0 CHANNEL_AXIS, .activationLayer relu,
          .conv nf nr nc s he_normal border_same]) := by
  simp [bn_relu_conv, bnReluConvT, bind_eq, pure_eq, BuildM.bind, BuildM.pure,
    Convolution2D, BatchNormalization, Activation, newLayer, List.append_assoc]

theorem MaxPooling2D_run (p s : Nat × Nat) (bm : String) (t : Tensor)
    (st : List LayerOp) :
    MaxPooling2D p s bm t st = (.ok (.maxPool p s bm t), st ++ [.maxPool p s bm]) := rfl

theorem AveragePooling2D_run (p s : Nat × Nat) (t : Tensor) (st : List LayerOp) :
    AveragePooling2D p s t st = (.ok (.avgPool p s t), st ++ [.avgPool p s]) := rfl

theorem Flatten_run (t : Tensor) (st : List LayerOp) :
    Flatten t st = (.ok (.flatten t), st ++ [.flattenLayer]) := rfl

theorem Dense_run (n : Nat) (i a : String) (t : Tensor) (st : List LayerOp) :
    Dense n i a t st = (.ok (.dense n i a t), st ++ [.denseLayer n i a]) := rfl

/-- Full characterization of `_shortcut`: a projection convolution is
inserted exactly when the floor-divided stride ratio exceeds 1 on either
spatial axis or the channel counts differ; otherwise the input is merged
as-is. -/
theorem shortcut_fn_run (input residual : Tensor) (st : List LayerOp) :
    shortcut_fn input residual st =
      if rowDim input / rowDim residual > 1 ∨ colDim input / colDim residual > 1 ∨
          ¬(channelDim residual = channelDim input) then
        (.ok (.merge
            (.conv2d (channelDim residual) 1 1
              (rowDim input / rowDim residual, colDim input / colDim residual)
              he_normal border_valid input)
            residual sum_merge),
          st ++ [.conv (channelDim residual) 1 1
              (rowDim input / rowDim residual, colDim input / colDim residual)
              he_normal border_valid,
            .mergeLayer sum_merge])
      else
        (.ok (.merge input residual sum_merge), st ++ [.mergeLayer sum_merge]) := by
  unfold shortcut_fn
  split
  case isTrue h =>
    simp [bind_eq, pure_eq, BuildM.bind, BuildM.pure, Convolution2D, merge,
      newLayer, List.append_assoc]
  case isFalse h =>
    simp [bind_eq, pure_eq, BuildM.bind, BuildM.pure, merge, newLayer,
      List.append_assoc]

/-- The residual-path tensor of `basic_block`. -/
def basicResidualT (nb_filters : Nat) (init_subsample : Nat × Nat) (t : Tensor) : Tensor :=
  bnReluConvT nb_filters 3 3 (1, 1) (bnReluConvT nb_filters 3 3 init_subsample t)

/-- The residual-path tensor of `bottleneck`: 1x1 with `nb_filters`, 3x3 with
`nb_filters`, then 1x1 with `nb_filters * 4`. -/
def bottleneckResidualT (nb_filters : Nat) (init_subsample : Nat × Nat) (t : Tensor) : Tensor :=
  bnReluConvT (nb_filters * 4) 1 1 (1, 1)
    (bnReluConvT nb_filters 3 3 (1, 1) (bnReluConvT nb_filters 1 1 init_subsample t))

theorem basic_block_run (nb : Nat) (s : Nat × Nat) (t : Tensor) (st : List LayerOp) :
    basic_block nb s t st =
      shortcut_fn t (basicResidualT nb s t)
        (st ++ [.batchNorm 0 CHANNEL_AXIS, .activationLayer relu,
          .conv nb 3 3 s he_normal border_same,
          .batchNorm 0 CHANNEL_AXIS, .activationLayer relu,
          .conv nb 3 3 (1, 1) he_normal border_same]) := by
  show (bn_relu_conv nb 3 3 s t >>= fun conv1 =>
      bn_relu_conv nb 3 3 (1, 1) conv1 >>= fun residual =>
      shortcut_fn t residual) st = _
  rw [bind_ok _ (bn_relu_conv_run nb 3 3 s t st),
    bind_ok _ (bn_relu_conv_run nb 3 3 (1, 1) _ _)]
  simp [basicResidualT, List.append_assoc]

theorem bottleneck_run (nb : Nat) (s : Nat × Nat) (t : Tensor) (st : List LayerOp) :
    bottleneck nb s t st =
      shortcut_fn t (bottleneckResidualT nb s t)
        (st ++ [.batchNorm 0 CHANNEL_AXIS, .activationLayer relu,
          .conv nb 1 1 s he_normal border_same,
          .batchNorm 0 CHANNEL_AXIS, .activationLayer relu,
          .conv nb 3 3 (1, 1) he_normal border_same,
          .batchNorm 0 CHANNEL_AXIS, .activationLayer relu,
          .conv (nb * 4) 1 1 (1, 1) he_normal border_same]) := by
  show (bn_relu_conv nb 1 1 s t >>= fun conv_1_1 =>
      bn_relu_conv nb 3 3 (1, 1) conv_1_1 >>= fun conv_3_3 =>
      bn_relu_conv (nb * 4) 1 1 (1, 1) conv_3_3 >>= fun residual =>
      shortcut_fn t residual) st = _
  rw [bind_ok _ (bn_relu_conv_run nb 1 1 s t st),
    bind_ok _ (bn_relu_conv_run nb 3 3 (1, 1) _ _),
    bind_ok _ (bn_relu_conv_run (nb * 4) 1 1 (1, 1) _ _)]
  simp [bottleneckResidualT, List.append_assoc]

/-! Framing: a computation made only of layer constructions returns `.ok`
and appends a trace segment that does not depend on the starting trace. -/

def OkFramed {α : Type} (m : BuildM α) : Prop :=
  ∃ a ops, ∀ st, m st = (.ok a, st ++ ops)

theorem okFramed_shortcut_fn (input residual : Tensor) :
    OkFramed (shortcut_fn input residual) := by
  by_cases h : rowDim input / rowDim residual > 1 ∨
      colDim input / colDim residual > 1 ∨
      ¬(channelDim residual = channelDim input)
  · exact ⟨_, _, fun st => by rw [shortcut_fn_run, if_pos h]⟩
  · exact ⟨_, _, fun st => by rw [shortcut_fn_run, if_neg h]⟩

theorem okFramed_basic_block (nb : Nat) (s : Nat × Nat) (t : Tensor) :
    OkFramed (basic_block nb s t) := by
  obtain ⟨a, ops, hsc⟩ := okFramed_shortcut_fn t (basicResidualT nb s t)
  exact ⟨a, _, fun st => by rw [basic_block_run, hsc, List.append_assoc]⟩

theorem okFramed_bottleneck (nb : Nat) (s : Nat × Nat) (t : Tensor) :
    OkFramed (bottleneck nb s t) := by
  obtain ⟨a, ops, hsc⟩ := okFramed_shortcut_fn t (bottleneckResidualT nb s t)
  exact ⟨a, _, fun st => by rw [bottleneck_run, hsc, List.append_assoc]⟩

/-- A block function whose every application is framed and successful. -/
def GoodBlock (bf : BlockFn) : Prop :=
  ∀ nb s t, OkFramed (bf nb s t)

theorem goodBlock_basic : GoodBlock basic_block := okFramed_basic_block

theorem goodBlock_bottleneck : GoodBlock bottleneck := okFramed_bottleneck

theorem goodBlock_of_real {bf : BlockFn}
    (hb : bf = basic_block ∨ bf = bottleneck) : GoodBlock bf := by
  rcases hb with h | h <;> rw [h]
  · exact goodBlock_basic
  · exact goodBlock_bottleneck

theorem okFramed_pure {α : Type} (a : α) : OkFramed (Pure.pure a : BuildM α) :=
  ⟨a, [], fun st => by simp [pure_eq, BuildM.pure]⟩

theorem okFramed_bind {α β : Type} {m : BuildM α} {f : α → BuildM β}
    (hm : OkFramed m) (hf : ∀ a, OkFramed (f a)) : OkFramed (m >>= f) := by
  obtain ⟨a, ops, hma⟩ := hm
  obtain ⟨b, ops', hfb⟩ := hf a
  exact ⟨b, ops ++ ops', fun st => by
    rw [bind_ok f (hma st), hfb, List.append_assoc]⟩

theorem okFramed_residual_block_go {bf : BlockFn} (hg : GoodBlock bf)
    (nb : Nat) (ifl : Bool) :
    ∀ (n : Nat) (fi : Bool) (t : Tensor), OkFramed (residual_block_go bf nb ifl n fi t) := by
  intro n
  induction n with
  | zero => intro fi t; exact okFramed_pure t
  | succ n ih =>
      intro fi t
      show OkFramed (bf nb _ t >>= fun t' => residual_block_go bf nb ifl n false t')
      exact okFramed_bind (hg _ _ _) (fun t' => ih false t')

theorem okFramed_residual_block {bf : BlockFn} (hg : GoodBlock bf)
    (nb r : Nat) (ifl : Bool) (t : Tensor) :
    OkFramed (residual_block bf nb r ifl t) :=
  okFramed_residual_block_go hg nb ifl r true t

theorem okFramed_stackStages {bf : BlockFn} (hg : GoodBlock bf) :
    ∀ (reps : List Nat) (nb : Nat) (fi : Bool) (t : Tensor),
      OkFramed (stackStages bf reps nb fi t) := by
  intro reps
  induction reps with
  | nil => intro nb fi t; exact okFramed_pure t
  | cons r rest ih =>
      intro nb fi t
      show OkFramed (residual_block bf nb r fi t >>= fun t' =>
        stackStages bf rest (nb * 2) false t')
      exact okFramed_bind (okFramed_residual_block hg nb r fi t)
        (fun t' => ih (nb * 2) false t')

/-! Spec-side description of the residual stages, following the spec's words:
stage `i` applies the block function `r_i` times with filter count
`64 * 2 ^ i`; the first block of every stage except stage 0 is invoked with
`init_subsample = (2, 2)`, every other invocation with `(1, 1)`. -/

/-- The `init_subsample` arguments of the `repetitions` block invocations of
one stage (`is_first_layer` true for stage 0). -/
def blockSubsamples (is_first_layer : Bool) (repetitions : Nat) : List (Nat × Nat) :=
  (List.range repetitions).map
    (fun j => if j = 0 ∧ is_first_layer = false then (2, 2) else (1, 1))

/-- Apply a block function once per entry of `subs`, passing that entry as
`init_subsample`. -/
def applyBlocks (block_fn : BlockFn) (nb_filters : Nat) :
    List (Nat × Nat) → Tensor → BuildM Tensor
  | [], t => pure t
  | s :: rest, t => do
      let t' ← block_fn nb_filters s t
      applyBlocks block_fn nb_filters rest t'

/-- The stages as the spec words them: stage `i` applies the block function
`r_i` times at filter count `64 * 2 ^ i`, downsampling on the first block of
every stage except stage 0. -/
def specStages (block_fn : BlockFn) : Nat → List Nat → Tensor → BuildM Tensor
  | _, [], t => pure t
  | i, r :: rest, t => do
      let t' ← applyBlocks block_fn (64 * 2 ^ i) (blockSubsamples (i == 0) r) t
      specStages block_fn (i + 1) rest t'

theorem blockSubsamples_zero (ifl : Bool) : blockSubsamples ifl 0 = [] := rfl

theorem blockSubsamples_succ (ifl : Bool) (n : Nat) :
    blockSubsamples ifl (n + 1) =
      (if ifl = false then ((2 : Nat), (2 : Nat)) else (1, 1)) ::
        List.replicate n (1, 1) := by
  unfold blockSubsamples
  rw [List.range_succ_eq_map, List.map_cons, List.map_map]
  congr 1
  case _ =>
    simp
  case _ =>
    calc (List.range n).map _
        = (List.range n).map (fun _ => ((1 : Nat), (1 : Nat))) := by
          apply List.map_congr_left
          intro j _
          simp [Function.comp]
      _ = List.replicate n (1, 1) := by
          simp [List.map_const']

theorem blockSubsamples_true (n : Nat) :
    blockSubsamples true n = List.replicate n (1, 1) := by
  cases n with
  | zero => rfl
  | succ n => rw [blockSubsamples_succ]; simp [List.replicate_succ]

theorem residual_block_go_false {bf : BlockFn} (nb : Nat) (ifl : Bool) :
    ∀ (n : Nat) (t : Tensor),
      residual_block_go bf nb ifl n false t =
        applyBlocks bf nb (List.replicate n (1, 1)) t := by
  intro n
  induction n with
  | zero => intro t; rfl
  | succ n ih =>
      intro t
      show (bf nb (1, 1) t >>= fun t' => residual_block_go bf nb ifl n false t') = _
      rw [List.replicate_succ]
      show _ = (bf nb (1, 1) t >>= fun t' => applyBlocks bf nb (List.replicate n (1, 1)) t')
      exact bind_congr_right ih

/-- `_residual_block` equals the spec-side block iteration: the first block
uses `(2, 2)` exactly when `is_first_layer` is false, every other block uses
`(1, 1)`. -/
theorem residual_block_eq_applyBlocks (bf : BlockFn) (nb r : Nat) (ifl : Bool)
    (t : Tensor) :
    residual_block bf nb r ifl t = applyBlocks bf nb (blockSubsamples ifl r) t := by
  cases r with
  | zero => rfl
  | succ n =>
      show (bf nb (if true && !ifl then (2, 2) else (1, 1)) t >>= fun t' =>
        residual_block_go bf nb ifl n false t') = _
      rw [blockSubsamples_succ]
      show _ = (bf nb _ t >>= fun t' => applyBlocks bf nb (List.replicate n (1, 1)) t')
      cases ifl with
      | false =>
          simp only [Bool.not_false, Bool.true_and, if_pos rfl]
          exact bind_congr_right (residual_block_go_false nb false n)
      | true =>
          simp only [Bool.not_true, Bool.and_false]
          exact bind_congr_right (residual_block_go_false nb true n)

/-- The stage loop of `build` equals the spec-side stage description, for
any starting stage index `i` (the loop enters with filter count
`64 * 2 ^ i` and `is_first_layer` exactly when `i = 0`). -/
theorem stackStages_eq_specStages (bf : BlockFn) :
    ∀ (reps : List Nat) (i : Nat) (t : Tensor),
      stackStages bf reps (64 * 2 ^ i) (i == 0) t = specStages bf i reps t := by
  intro reps
  induction reps with
  | nil => intro i t; rfl
  | cons r rest ih =>
      intro i t
      show (residual_block bf (64 * 2 ^ i) r (i == 0) t >>= fun t' =>
        stackStages bf rest (64 * 2 ^ i * 2) false t') = _
      rw [residual_block_eq_applyBlocks]
      show _ = (applyBlocks bf (64 * 2 ^ i) (blockSubsamples (i == 0) r) t >>= fun t' =>
        specStages bf (i + 1) rest t')
      apply bind_congr_right
      intro t'
      have h2 : 64 * 2 ^ i * 2 = 64 * 2 ^ (i + 1) := by ring
      have hb : (false : Bool) = ((i + 1) == 0) := by simp
      rw [h2, hb, ih (i + 1) t']

theorem stackStages_eq_specStages_zero (bf : BlockFn) (reps : List Nat) (t : Tensor) :
    stackStages bf reps 64 true t = specStages bf 0 reps t := by
  have := stackStages_eq_specStages bf reps 0 t
  simpa using this

/-! Characterization of `ResNetBuilder.build` itself. -/

theorem pure_run {α : Type} (a : α) (st : List LayerOp) :
    (Pure.pure a : BuildM α) st = (.ok a, st) := rfl

/-- The tensor after the stem (input -> 7x7/2 conv -> BN -> relu -> 3x3/2
max pool). -/
def stemT (shape : List Nat) : Tensor :=
  .maxPool (3, 3) (2, 2) border_same (convBnReluT 64 7 7 (2, 2) (.input shape))

/-- The layer objects constructed by the stem, in order. -/
def stemOps (shape : List Nat) : List LayerOp :=
  [.inputLayer shape, .conv 64 7 7 (2, 2) he_normal border_same,
    .batchNorm 0 CHANNEL_AXIS, .activationLayer relu,
    .maxPool (3, 3) (2, 2) border_same]

/-- With a malformed `input_shape`, `build` raises before constructing any
layer. -/
theorem build_run_badshape (shape : List Nat) (n : Nat) (bf : BlockFn)
    (reps : List Nat) (mode : String) (h3 : shape.length ≠ 3) :
    runBuild (ResNetBuilder_build shape n bf reps mode) =
      (.error input_shape_msg, []) := by
  unfold runBuild ResNetBuilder_build
  rw [if_pos h3]
  rfl

/-- Master characterization of a `build` run on a well-formed shape: the
trace is the stem, then the stages, then average pooling over the remaining
spatial extent, then flatten, then (for a valid mode) the dense head; the
returned model keeps the input layer's tensor as input and the dense
tensor as output, and is not compiled. -/
theorem build_run_char {bf : BlockFn} (hg : GoodBlock bf) (shape : List Nat)
    (n : Nat) (reps : List Nat) (mode : String) (h3 : shape.length = 3) :
    ∃ s ops,
      (∀ st, stackStages bf reps 64 true (stemT shape) st = (.ok s, st ++ ops)) ∧
      runBuild (ResNetBuilder_build shape n bf reps mode) =
        (if mode = categorical then
          (.ok (Model.new (.input shape)
              (.dense n he_normal softmax
                (.flatten (.avgPool (rowDim s, colDim s) (1, 1) s)))),
            stemOps shape ++ ops ++
              [.avgPool (rowDim s, colDim s) (1, 1), .flattenLayer,
                .denseLayer n he_normal softmax])
        else if mode = binary then
          (.ok (Model.new (.input shape)
              (.dense 1 he_normal sigmoid
                (.flatten (.avgPool (rowDim s, colDim s) (1, 1) s)))),
            stemOps shape ++ ops ++
              [.avgPool (rowDim s, colDim s) (1, 1), .flattenLayer,
                .denseLayer 1 he_normal sigmoid])
        else
          (.error mode_msg,
            stemOps shape ++ ops ++
              [.avgPool (rowDim s, colDim s) (1, 1), .flattenLayer])) := by
  obtain ⟨s, ops, hs⟩ := okFramed_stackStages hg reps 64 true (stemT shape)
  refine ⟨s, ops, hs, ?_⟩
  have hs' := hs (stemOps shape)
  simp only [stemT, convBnReluT, stemOps] at hs'
  unfold runBuild ResNetBuilder_build
  rw [if_neg (by simp [h3] : ¬shape.length ≠ 3)]
  by_cases hm1 : mode = categorical
  · subst hm1
    simp only [bind_eq, pure_eq, BuildM.bind, BuildM.pure, Input, conv_bn_relu,
      Convolution2D, BatchNormalization, Activation, MaxPooling2D,
      AveragePooling2D, Flatten, Dense, newLayer, hs', reduceIte,
      categorical, binary, String.reduceEq,
      List.nil_append, List.cons_append, stemOps, List.append_assoc,
      stemT, convBnReluT]
  · by_cases hm2 : mode = binary
    · subst hm2
      simp only [bind_eq, pure_eq, BuildM.bind, BuildM.pure, Input, conv_bn_relu,
        Convolution2D, BatchNormalization, Activation, MaxPooling2D,
        AveragePooling2D, Flatten, Dense, newLayer, hs', reduceIte,
        categorical, binary, String.reduceEq,
        List.nil_append, List.cons_append, stemOps, List.append_assoc,
        stemT, convBnReluT]
    · simp only [bind_eq, pure_eq, BuildM.bind, BuildM.pure, Input, conv_bn_relu,
        Convolution2D, BatchNormalization, Activation, MaxPooling2D,
        AveragePooling2D, Flatten, Dense, newLayer, raiseB, hs',
        if_neg hm1, if_neg hm2,
        List.nil_append, List.cons_append, stemOps, List.append_assoc,
        stemT, convBnReluT]

/-- Identity-or-projection shape of a `_shortcut` result. -/
theorem shortcut_shape (input residual : Tensor) (st : List LayerOp) :
    ∃ sc st', shortcut_fn input residual st =
        (.ok (.merge sc residual sum_merge), st') ∧
      (sc = input ∨
        sc = .conv2d (channelDim residual) 1 1
          (rowDim input / rowDim residual, colDim input / colDim residual)
          he_normal border_valid input) := by
  by_cases h : rowDim input / rowDim residual > 1 ∨
      colDim input / colDim residual > 1 ∨
      ¬(channelDim residual = channelDim input)
  · exact ⟨_, _, by rw [shortcut_fn_run, if_pos h], Or.inr rfl⟩
  · exact ⟨_, _, by rw [shortcut_fn_run, if_neg h], Or.inl rfl⟩

/-- Projection of a build result used by concrete counterexamples: the
`compiled` flag of the returned model, if a model was returned. -/
def compiledOf : Except String Model × List LayerOp → Option Bool
  | (.ok m, _) => some m.compiled
  | (.error _, _) => none

/-- C1: for every valid input (3-element shape, output count, one of the
repository's two block functions, any repetitions list, a valid mode),
`ResNetBuilder.build` constructs, in order: the input layer, the 7x7/64
stride-(2,2) stem convolution with batch normalization and relu, a 3x3
stride-(2,2) max pooling, the stacked residual stages (one per repetitions
entry), an average pooling whose pool size is exactly the remaining spatial
extent of the last stage's output, a flatten, and the dense classifier
head; the returned model has the input layer's tensor as input and the
dense tensor as output. -/
theorem claim_C1_build_wiring (input_shape : List Nat) (num_outputs : Nat)
    (block_fn : BlockFn) (repetitions : List Nat) (mode : String)
    (h3 : input_shape.length = 3)
    (hb : block_fn = basic_block ∨ block_fn = bottleneck)
    (hm : mode = categorical ∨ mode = binary) :
    ∃ s ops,
      (∀ st, stackStages block_fn repetitions 64 true (stemT input_shape) st =
        (.ok s, st ++ ops)) ∧
      runBuild (ResNetBuilder_build input_shape num_outputs block_fn repetitions mode) =
        (.ok (Model.new (.input input_shape)
            (.dense (if mode = binary then 1 else num_outputs) he_normal
              (if mode = binary then sigmoid else softmax)
              (.flatten (.avgPool (rowDim s, colDim s) (1, 1) s)))),
          stemOps input_shape ++ ops ++
            [.avgPool (rowDim s, colDim s) (1, 1), .flattenLayer,
              .denseLayer (if mode = binary then 1 else num_outputs) he_normal
                (if mode = binary then sigmoid else softmax)]) := by
  obtain ⟨s, ops, hst, hrun⟩ :=
    build_run_char (goodBlock_of_real hb) input_shape num_outputs repetitions mode h3
  refine ⟨s, ops, hst, ?_⟩
  rcases hm with hm | hm <;> subst hm <;>
    simp only [categorical, binary, String.reduceEq, reduceIte] at hrun ⊢ <;>
    exact hrun

/-- Witness for C1 at a concrete input. -/
theorem claim_C1_build_wiring_witness :
    ∃ s ops,
      (∀ st, stackStages basic_block [1] 64 true (stemT [3, 8, 8]) st =
        (.ok s, st ++ ops)) ∧
      runBuild (ResNetBuilder_build [3, 8, 8] 10 basic_block [1] categorical) =
        (.ok (Model.new (.input [3, 8, 8])
            (.dense (if categorical = binary then 1 else 10) he_normal
              (if categorical = binary then sigmoid else softmax)
              (.flatten (.avgPool (rowDim s, colDim s) (1, 1) s)))),
          stemOps [3, 8, 8] ++ ops ++
            [.avgPool (rowDim s, colDim s) (1, 1), .flattenLayer,
              .denseLayer (if categorical = binary then 1 else 10) he_normal
                (if categorical = binary then sigmoid else softmax)]) :=
  claim_C1_build_wiring [3, 8, 8] 10 basic_block [1] categorical rfl
    (Or.inl rfl) (Or.inl rfl)

/-- C2 counterexample: with input `_keras_shape` (64, 3, 3) and residual
(64, 2, 2), the channel counts are equal and the spatial dimensions differ,
yet `_shortcut` inserts no projection convolution: the floor-divided stride
ratio is 3 / 2 = 1, so the code takes the identity branch and merges the
input unchanged (the trace shows only the merge layer).  The claim, as
stated, requires a 1x1 projection convolution here. -/
theorem claim_C2_shortcut_counterexample :
    channelDim (Tensor.input [64, 2, 2]) = channelDim (Tensor.input [64, 3, 3]) ∧
    rowDim (Tensor.input [64, 3, 3]) ≠ rowDim (Tensor.input [64, 2, 2]) ∧
    colDim (Tensor.input [64, 3, 3]) ≠ colDim (Tensor.input [64, 2, 2]) ∧
    shortcut_fn (Tensor.input [64, 3, 3]) (Tensor.input [64, 2, 2]) [] =
      (.ok (.merge (.input [64, 3, 3]) (.input [64, 2, 2]) sum_merge),
        [.mergeLayer sum_merge]) := by
  decide

/-- C2 as amended: `_shortcut` merges with "sum"; a 1x1 projection
convolution with the residual's channel count and stride equal to the
floor-divided ratio of the spatial dimensions is applied to the input
exactly when that ratio exceeds 1 on either spatial axis or the channel
counts differ; otherwise the input is used unchanged (even when unequal
spatial dimensions happen to give a floor ratio of 1). -/
theorem claim_C2_shortcut_amended (input residual : Tensor) (st : List LayerOp) :
    shortcut_fn input residual st =
      if rowDim input / rowDim residual > 1 ∨ colDim input / colDim residual > 1 ∨
          ¬(channelDim residual = channelDim input) then
        (.ok (.merge
            (.conv2d (channelDim residual) 1 1
              (rowDim input / rowDim residual, colDim input / colDim residual)
              he_normal border_valid input)
            residual sum_merge),
          st ++ [.conv (channelDim residual) 1 1
              (rowDim input / rowDim residual, colDim input / colDim residual)
              he_normal border_valid,
            .mergeLayer sum_merge])
      else
        (.ok (.merge input residual sum_merge), st ++ [.mergeLayer sum_merge]) :=
  shortcut_fn_run input residual st

/-- C3: the named variant constructors call `ResNetBuilder.build` with
exactly the fixed tables: ResNet-18 basic [2,2,2,2]; ResNet-34 and the
binary variant basic [3,4,6,3]; ResNet-50 bottleneck [3,4,6,3]; ResNet-101
bottleneck [3,4,23,3]; ResNet-152 bottleneck [3,8,36,3]; only the binary
variant passes mode "binary", all others the default "categorical". -/
theorem claim_C3_variant_tables :
    ∀ (input_shape : List Nat) (num_outputs : Nat),
      build_resnet_18 input_shape num_outputs =
        ResNetBuilder_build input_shape num_outputs basic_block [2, 2, 2, 2] categorical ∧
      build_resnet_34 input_shape num_outputs =
        ResNetBuilder_build input_shape num_outputs basic_block [3, 4, 6, 3] categorical ∧
      build_resnet_34_binary input_shape =
        ResNetBuilder_build input_shape 1 basic_block [3, 4, 6, 3] binary ∧
      build_resnet_50 input_shape num_outputs =
        ResNetBuilder_build input_shape num_outputs bottleneck [3, 4, 6, 3] categorical ∧
      build_resnet_101 input_shape num_outputs =
        ResNetBuilder_build input_shape num_outputs bottleneck [3, 4, 23, 3] categorical ∧
      build_resnet_152 input_shape num_outputs =
        ResNetBuilder_build input_shape num_outputs bottleneck [3, 8, 36, 3] categorical :=
  fun _ _ => ⟨rfl, rfl, rfl, rfl, rfl, rfl⟩

/-- C4: the stage loop of `build` equals the spec-side description in which
stage `i` applies the block function exactly `r_i` times (the subsample
list of stage `i` has length `r_i`) at filter count `64 * 2 ^ i`. -/
theorem claim_C4_stage_repetitions_filters :
    ∀ (block_fn : BlockFn) (repetitions : List Nat) (t : Tensor)
      (is_first : Bool) (r : Nat),
      stackStages block_fn repetitions 64 true t = specStages block_fn 0 repetitions t ∧
      (blockSubsamples is_first r).length = r := by
  intro bf reps t fi r
  refine ⟨stackStages_eq_specStages_zero bf reps t, ?_⟩
  simp [blockSubsamples]

/-- C5: spatial downsampling placement.  The stage loop equals the
spec-side description (whose stage `i` passes `is_first_layer` exactly for
`i = 0`); `_residual_block` invokes its block function once per entry of
`blockSubsamples is_first_layer repetitions`; for the first stage that list
is all (1, 1); for every later stage it is (2, 2) followed by (1, 1)s, so
exactly the first block of every stage but the first downsamples. -/
theorem claim_C5_downsampling :
    ∀ (block_fn : BlockFn) (repetitions : List Nat) (t : Tensor)
      (nb r m : Nat) (is_first : Bool) (u : Tensor),
      stackStages block_fn repetitions 64 true t = specStages block_fn 0 repetitions t ∧
      residual_block block_fn nb r is_first u =
        applyBlocks block_fn nb (blockSubsamples is_first r) u ∧
      blockSubsamples true r = List.replicate r (1, 1) ∧
      blockSubsamples false (m + 1) = (2, 2) :: List.replicate m (1, 1) := by
  intro bf reps t nb r m fi u
  refine ⟨stackStages_eq_specStages_zero bf reps t,
    residual_block_eq_applyBlocks bf nb r fi u,
    blockSubsamples_true r, ?_⟩
  rw [blockSubsamples_succ]
  simp

/-- C6 counterexample: at a concrete valid input, `build` returns a model
whose `compiled` flag is false: `Model(input=..., output=...)` is returned
as-is and `model.compile(...)` is never called inside `build` (in the repo
it happens only in `main`, after `build` returns).  The claim that `build`
returns a compiled model object is therefore false. -/
theorem claim_C6_counterexample :
    compiledOf (runBuild (ResNetBuilder_build [3, 8, 8] 10 basic_block [1] categorical)) =
      some false := by
  decide

/-- C6 as amended: for every valid input, `ResNetBuilder.build` returns a
model object, but an uncompiled one; compiling is left to the caller. -/
theorem claim_C6_uncompiled_model (input_shape : List Nat) (num_outputs : Nat)
    (block_fn : BlockFn) (repetitions : List Nat) (mode : String)
    (h3 : input_shape.length = 3)
    (hb : block_fn = basic_block ∨ block_fn = bottleneck)
    (hm : mode = categorical ∨ mode = binary) :
    ∃ m ops,
      runBuild (ResNetBuilder_build input_shape num_outputs block_fn repetitions mode) =
        (.ok m, ops) ∧ m.compiled = false := by
  obtain ⟨s, ops, hst, hrun⟩ :=
    build_run_char (goodBlock_of_real hb) input_shape num_outputs repetitions mode h3
  rcases hm with hm | hm <;> subst hm <;>
    simp only [categorical, binary, String.reduceEq, reduceIte] at hrun <;>
    exact ⟨_, _, hrun, rfl⟩

/-- Witness for the amended C6 at a concrete input. -/
theorem claim_C6_uncompiled_model_witness :
    ∃ m ops,
      runBuild (ResNetBuilder_build [3, 8, 8] 10 basic_block [1] categorical) =
        (.ok m, ops) ∧ m.compiled = false :=
  claim_C6_uncompiled_model [3, 8, 8] 10 basic_block [1] categorical rfl
    (Or.inl rfl) (Or.inl rfl)

/-- C7: both `basic_block` and `bottleneck` return the elementwise "sum"
merge of their residual path with the block's own input, the latter taken
either unchanged or through a 1x1 projection convolution. -/
theorem claim_C7_blocks_are_residual :
    ∀ (nb_filters : Nat) (init_subsample : Nat × Nat) (t : Tensor) (st : List LayerOp),
      (∃ residual sc st',
        basic_block nb_filters init_subsample t st =
          (.ok (.merge sc residual sum_merge), st') ∧
        (sc = t ∨ sc = .conv2d (channelDim residual) 1 1
          (rowDim t / rowDim residual, colDim t / colDim residual)
          he_normal border_valid t)) ∧
      (∃ residual sc st',
        bottleneck nb_filters init_subsample t st =
          (.ok (.merge sc residual sum_merge), st') ∧
        (sc = t ∨ sc = .conv2d (channelDim residual) 1 1
          (rowDim t / rowDim residual, colDim t / colDim residual)
          he_normal border_valid t)) := by
  intro nb s t st
  constructor
  · obtain ⟨sc, st', heq, hid⟩ := shortcut_shape t (basicResidualT nb s t)
      (st ++ [.batchNorm 0 CHANNEL_AXIS, .activationLayer relu,
        .conv nb 3 3 s he_normal border_same,
        .batchNorm 0 CHANNEL_AXIS, .activationLayer relu,
        .conv nb 3 3 (1, 1) he_normal border_same])
    exact ⟨basicResidualT nb s t, sc, st', by rw [basic_block_run, heq], hid⟩
  · obtain ⟨sc, st', heq, hid⟩ := shortcut_shape t (bottleneckResidualT nb s t)
      (st ++ [.batchNorm 0 CHANNEL_AXIS, .activationLayer relu,
        .conv nb 1 1 s he_normal border_same,
        .batchNorm 0 CHANNEL_AXIS, .activationLayer relu,
        .conv nb 3 3 (1, 1) he_normal border_same,
        .batchNorm 0 CHANNEL_AXIS, .activationLayer relu,
        .conv (nb * 4) 1 1 (1, 1) he_normal border_same])
    exact ⟨bottleneckResidualT nb s t, sc, st', by rw [bottleneck_run, heq], hid⟩

/-- C8: the residual path of `bottleneck` is a 1x1 convolution with
`nb_filters` channels, then a 3x3 convolution with `nb_filters` channels,
then a final 1x1 convolution with `nb_filters * 4` channels (each in
BN -> relu -> conv order). -/
theorem claim_C8_bottleneck_path :
    ∀ (nb_filters : Nat) (init_subsample : Nat × Nat) (t : Tensor) (st : List LayerOp),
      ∃ sc st',
        bottleneck nb_filters init_subsample t st =
          (.ok (.merge sc
            (bnReluConvT (nb_filters * 4) 1 1 (1, 1)
              (bnReluConvT nb_filters 3 3 (1, 1)
                (bnReluConvT nb_filters 1 1 init_subsample t)))
            sum_merge), st') := by
  intro nb s t st
  obtain ⟨sc, st', heq, _⟩ := shortcut_shape t (bottleneckResidualT nb s t)
    (st ++ [.batchNorm 0 CHANNEL_AXIS, .activationLayer relu,
      .conv nb 1 1 s he_normal border_same,
      .batchNorm 0 CHANNEL_AXIS, .activationLayer relu,
      .conv nb 3 3 (1, 1) he_normal border_same,
      .batchNorm 0 CHANNEL_AXIS, .activationLayer relu,
      .conv (nb * 4) 1 1 (1, 1) he_normal border_same])

  refine ⟨sc, st', ?_⟩
  rw [bottleneck_run, heq]
  rfl

/-- C9: `build` raises exactly when the shape is not 3-element or the mode
is invalid; a bad shape is rejected with an empty trace (no layer object
constructed yet), while a bad mode is rejected only after the whole graph
up to the flatten layer has been constructed. -/
theorem claim_C9_error_behaviour (input_shape : List Nat) (num_outputs : Nat)
    (block_fn : BlockFn) (repetitions : List Nat) (mode : String)
    (hb : block_fn = basic_block ∨ block_fn = bottleneck) :
    ((∃ e ops, runBuild (ResNetBuilder_build input_shape num_outputs block_fn
        repetitions mode) = (.error e, ops)) ↔
      (input_shape.length ≠ 3 ∨ (mode ≠ categorical ∧ mode ≠ binary))) ∧
    (input_shape.length ≠ 3 →
      runBuild (ResNetBuilder_build input_shape num_outputs block_fn repetitions mode) =
        (.error input_shape_msg, [])) ∧
    (input_shape.length = 3 → mode ≠ categorical → mode ≠ binary →
      ∃ s ops,
        (∀ st, stackStages block_fn repetitions 64 true (stemT input_shape) st =
          (.ok s, st ++ ops)) ∧
        runBuild (ResNetBuilder_build input_shape num_outputs block_fn repetitions mode) =
          (.error mode_msg,
            stemOps input_shape ++ ops ++
              [.avgPool (rowDim s, colDim s) (1, 1), .flattenLayer])) := by
  refine ⟨?_, ?_, ?_⟩
  · constructor
    · rintro ⟨e, ops2, heq⟩
      by_cases h3 : input_shape.length = 3
      · right
        obtain ⟨s, ops, hst, hrun⟩ :=
          build_run_char (goodBlock_of_real hb) input_shape num_outputs repetitions mode h3
        constructor
        · intro hm1
          subst hm1
          rw [if_pos rfl] at hrun
          rw [heq] at hrun
          simp at hrun
        · intro hm2
          subst hm2
          rw [if_neg (show ¬(binary = categorical) by decide), if_pos rfl] at hrun
          rw [heq] at hrun
          simp at hrun
      · exact Or.inl h3
    · rintro (h3 | ⟨hm1, hm2⟩)
      · exact ⟨_, _, build_run_badshape input_shape num_outputs block_fn repetitions mode h3⟩
      · by_cases h3 : input_shape.length = 3
        · obtain ⟨s, ops, hst, hrun⟩ :=
            build_run_char (goodBlock_of_real hb) input_shape num_outputs repetitions mode h3
          rw [if_neg hm1, if_neg hm2] at hrun
          exact ⟨_, _, hrun⟩
        · exact ⟨_, _, build_run_badshape input_shape num_outputs block_fn repetitions mode h3⟩
  · intro h3
    exact build_run_badshape input_shape num_outputs block_fn repetitions mode h3
  · intro h3 hm1 hm2
    obtain ⟨s, ops, hst, hrun⟩ :=
      build_run_char (goodBlock_of_real hb) input_shape num_outputs repetitions mode h3
    rw [if_neg hm1, if_neg hm2] at hrun
    exact ⟨s, ops, hst, hrun⟩

/-- Witness for C9 at a concrete input (bad shape, valid mode). -/
theorem claim_C9_error_behaviour_witness :
    ((∃ e ops, runBuild (ResNetBuilder_build [1, 2] 5 basic_block [1] categorical) =
        (.error e, ops)) ↔
      (([1, 2] : List Nat).length ≠ 3 ∨ (categorical ≠ categorical ∧ categorical ≠ binary))) ∧
    (([1, 2] : List Nat).length ≠ 3 →
      runBuild (ResNetBuilder_build [1, 2] 5 basic_block [1] categorical) =
        (.error input_shape_msg, [])) ∧
    (([1, 2] : List Nat).length = 3 → categorical ≠ categorical → categorical ≠ binary →
      ∃ s ops,
        (∀ st, stackStages basic_block [1] 64 true (stemT [1, 2]) st =
          (.ok s, st ++ ops)) ∧
        runBuild (ResNetBuilder_build [1, 2] 5 basic_block [1] categorical) =
          (.error mode_msg,
            stemOps [1, 2] ++ ops ++
              [.avgPool (rowDim s, colDim s) (1, 1), .flattenLayer])) :=
  claim_C9_error_behaviour [1, 2] 5 basic_block [1] categorical (Or.inl rfl)

/-- C10: in "binary" mode the dense head is `Dense(1, sigmoid)` and the
`num_outputs` argument is ignored entirely (the built computation does not
depend on it); in "categorical" mode it is `Dense(num_outputs, softmax)`. -/
theorem claim_C10_head_by_mode (input_shape : List Nat) (n1 n2 : Nat)
    (block_fn : BlockFn) (repetitions : List Nat)
    (h3 : input_shape.length = 3)
    (hb : block_fn = basic_block ∨ block_fn = bottleneck) :
    ResNetBuilder_build input_shape n1 block_fn repetitions binary =
      ResNetBuilder_build input_shape n2 block_fn repetitions binary ∧
    (∃ s ops,
      runBuild (ResNetBuilder_build input_shape n1 block_fn repetitions binary) =
        (.ok (Model.new (.input input_shape)
            (.dense 1 he_normal sigmoid
              (.flatten (.avgPool (rowDim s, colDim s) (1, 1) s)))),
          stemOps input_shape ++ ops ++
            [.avgPool (rowDim s, colDim s) (1, 1), .flattenLayer,
              .denseLayer 1 he_normal sigmoid])) ∧
    (∃ s ops,
      runBuild (ResNetBuilder_build input_shape n1 block_fn repetitions categorical) =
        (.ok (Model.new (.input input_shape)
            (.dense n1 he_normal softmax
              (.flatten (.avgPool (rowDim s, colDim s) (1, 1) s)))),
          stemOps input_shape ++ ops ++
            [.avgPool (rowDim s, colDim s) (1, 1), .flattenLayer,
              .denseLayer n1 he_normal softmax])) := by
  refine ⟨rfl, ?_, ?_⟩
  · obtain ⟨s, ops, hst, hrun⟩ :=
      build_run_char (goodBlock_of_real hb) input_shape n1 repetitions binary h3
    simp only [categorical, binary, String.reduceEq, reduceIte] at hrun
    exact ⟨s, ops, hrun⟩
  · obtain ⟨s, ops, hst, hrun⟩ :=
      build_run_char (goodBlock_of_real hb) input_shape n1 repetitions categorical h3
    simp only [categorical, binary, String.reduceEq, reduceIte] at hrun
    exact ⟨s, ops, hrun⟩

/-- Witness for C10 at a concrete input. -/
theorem claim_C10_head_by_mode_witness :
    ResNetBuilder_build [3, 8, 8] 10 basic_block [1] binary =
      ResNetBuilder_build [3, 8, 8] 20 basic_block [1] binary ∧
    (∃ s ops,
      runBuild (ResNetBuilder_build [3, 8, 8] 10 basic_block [1] binary) =
        (.ok (Model.new (.input [3, 8, 8])
            (.dense 1 he_normal sigmoid
              (.flatten (.avgPool (rowDim s, colDim s) (1, 1) s)))),
          stemOps [3, 8, 8] ++ ops ++
            [.avgPool (rowDim s, colDim s) (1, 1), .flattenLayer,
              .denseLayer 1 he_normal sigmoid])) ∧
    (∃ s ops,
      runBuild (ResNetBuilder_build [3, 8, 8] 10 basic_block [1] categorical) =
        (.ok (Model.new (.input [3, 8, 8])
            (.dense 10 he_normal softmax
              (.flatten (.avgPool (rowDim s, colDim s) (1, 1) s)))),
          stemOps [3, 8, 8] ++ ops ++
            [.avgPool (rowDim s, colDim s) (1, 1), .flattenLayer,
              .denseLayer 10 he_normal softmax])) :=
  claim_C10_head_by_mode [3, 8, 8] 10 20 basic_block [1] rfl (Or.inl rfl)

end Resnet
